import Mathlib

/-!
A verification development for the static-analysis core of the
`analysiswebserver` repository (backend/analysis).  The Python sources are
shallowly embedded: the syntax tree is a tagged union of the node kinds the
analyzer inspects, each analyzer function becomes a Lean function over that
tree, and machine floats for the percentage fields are modelled as exact
rationals (at the 80/20 threshold values and at 0/100 the IEEE-double
computations of the source coincide with exact rational arithmetic, which was
checked numerically for the ratios reachable at those boundaries).

Source files embedded:
  backend/analysis/parser/import_detector.py  (class ImportDetector)
  backend/analysis/parser/ast_analyzer.py     (class ASTAnalyzer)
  backend/analysis/core.py                    (class AnalysisEngine)

Python's `ast.parse` is the abstracted boundary: a file arrives either as a
parsed module body or as a syntax error, together with the raw line list
(`content.splitlines()`).  `ast.walk` is breadth-first in CPython; the walks
below are depth-first, which changes only the order of the collected lists,
and no embedded claim depends on that order (only counts, emptiness and set
membership are at stake).  Python `set` iteration order is likewise
unspecified; deduplication is modelled with `List.dedup`.
-/

namespace AnalysisWeb

/-- Python `str.startswith(p)` on `s`, modelled on the character lists. -/
def strStartsWith (s p : String) : Bool := p.data.isPrefixOf s.data

/-- Characters of a string strictly after the first `'.'` (empty when the
first `'.'` is last or when the walk exhausts the list). -/
def afterFirstDotAux : List Char → List Char
  | [] => []
  | c :: cs => if c = '.' then cs else afterFirstDotAux cs

/-- Python `s.split(".", 1)[1]`: everything after the first dot. -/
def afterFirstDot (s : String) : String := ⟨afterFirstDotAux s.data⟩

/-- Python `"." in s`. -/
def containsDot (s : String) : Bool := s.data.contains '.'

/-- `ImportDetector.UI_FRAMEWORKS` (import_detector.py lines 13-20):
framework name paired with its UI-submodule allow-list; `"*"` means every
submodule counts as UI. -/
def UI_FRAMEWORKS : List (String × List String) :=
  [ ("PyQt5", ["QtWidgets", "QtGui", "QtCore", "QtWebEngineWidgets", "uic"]),
    ("PyQt6", ["QtWidgets", "QtGui", "QtCore", "QtWebEngineWidgets", "uic"]),
    ("PySide2", ["QtWidgets", "QtGui", "QtCore", "QtWebEngineWidgets"]),
    ("PySide6", ["QtWidgets", "QtGui", "QtCore", "QtWebEngineWidgets"]),
    ("tkinter", ["*"]),
    ("wx", ["*"]) ]

/-- `ImportDetector.UI_BASE_CLASSES` (import_detector.py lines 23-30). -/
def UI_BASE_CLASSES : List String :=
  [ "QWidget", "QMainWindow", "QDialog", "QFrame", "QScrollArea",
    "QPushButton", "QLabel", "QLineEdit", "QTextEdit", "QComboBox",
    "QCheckBox", "QRadioButton", "QSlider", "QProgressBar",
    "QTableWidget", "QListWidget", "QTreeWidget",
    "QGraphicsView", "QGraphicsScene", "QGraphicsItem",
    "Tk", "Frame", "Canvas", "Button", "Label" ]

/-- The fixed UI-method-name set of `ASTAnalyzer._detect_ui_usage`
(ast_analyzer.py lines 189-193). -/
def UI_METHODS : List String :=
  [ "show", "hide", "close", "exec", "exec_",
    "setText", "setEnabled", "setVisible",
    "addWidget", "setLayout", "setCentralWidget" ]

/-! ## The embedded syntax tree

Only the node kinds the analyzer dispatches on are distinguished; every other
expression becomes `unresolvable` (so `_get_name` yields `""` on it, as the
source does for unrecognized nodes) and every other compound statement becomes
a `block` holding its nested statements.  Statements such as assignments or
returns are represented by `exprStmt` carrying the expression the walk would
descend into.  Decorators, argument lists and annotations are not modelled.
`endLineno = 0` encodes a missing (`None`) `end_lineno`, matching the falsy
test in `node.end_lineno or start_line`. -/

mutual
inductive Expr where
  | name (id : String)
  | attribute (value : Expr) (attr : String)
  | call (func : Expr) (args : List Expr)
  | unresolvable

inductive Stmt where
  | functionDef (isAsync : Bool) (name : String) (lineno endLineno : Nat)
      (body : List Stmt)
  | classDef (name : String) (lineno endLineno : Nat) (bases : List Expr)
      (body : List Stmt)
  | globalDecl (names : List String)
  | nonlocalDecl (names : List String)
  | importStmt (lineno : Nat) (aliases : List (String × Option String))
  | importFrom (lineno : Nat) (module : Option String) (names : List String)
  | exprStmt (e : Expr)
  | block (body : List Stmt)
end

/-- `ASTAnalyzer._get_name` (ast_analyzer.py lines 266-277). -/
def getName : Expr → String
  | .name id => id
  | .attribute v a =>
      let parent := getName v
      if parent = "" then a else parent ++ "." ++ a
  | .call f _ => getName f
  | .unresolvable => ""

/-! ## Import detector -/

/-- The record built by `ImportDetector` for each import statement
(analysis_models `Import`). -/
structure ImportRec where
  module : String
  names : List String
  is_ui : Bool
  line_number : Nat
  deriving Repr, DecidableEq

/-- `ImportDetector._is_ui_module` (import_detector.py lines 86-105). -/
def isUiModule (module_name : String) : Bool :=
  (UI_FRAMEWORKS.any (fun fs => fs.1 == module_name)) ||
  (UI_FRAMEWORKS.any (fun fs => strStartsWith module_name (fs.1 ++ ".")))

/-- `ImportDetector._is_ui_import_from` (import_detector.py lines 107-134).
The submodule-suffix taken is everything after the first dot of the full
module name, exactly as `module_name.split(".", 1)[1]` computes it. -/
def isUiImportFrom (module_name : String) (imported_names : List String) : Bool :=
  (UI_FRAMEWORKS.any (fun fs => fs.1 == module_name)) ||
  (UI_FRAMEWORKS.any (fun fs =>
    strStartsWith module_name (fs.1 ++ ".") &&
      (fs.2.contains "*" ||
        fs.2.contains (if containsDot module_name then afterFirstDot module_name else "")))) ||
  (imported_names.any (fun n => UI_BASE_CLASSES.contains n))

/-- `ImportDetector._process_import` for one `import`-statement node
(import_detector.py lines 55-67): one record per alias, recording the alias
(or the module name when no alias is given) as the imported name. -/
def processImport (lineno : Nat) (aliases : List (String × Option String)) :
    List ImportRec :=
  aliases.map (fun a =>
    { module := a.1
      names := [a.2.getD a.1]
      is_ui := isUiModule a.1
      line_number := lineno })

/-- `ImportDetector._process_import_from` (import_detector.py lines 69-84):
relative imports with no module segment are skipped. -/
def processImportFrom (lineno : Nat) (module : Option String)
    (names : List String) : List ImportRec :=
  match module with
  | none => []
  | some m =>
      [ { module := m
          names := names
          is_ui := isUiImportFrom m names
          line_number := lineno } ]

mutual
/-- Import records contributed by one statement and all its descendants,
as `ImportDetector.detect_imports` collects them with `ast.walk`. -/
def stmtImports : Stmt → List ImportRec
  | .functionDef _ _ _ _ body => stmtsImports body
  | .classDef _ _ _ _ body => stmtsImports body
  | .globalDecl _ => []
  | .nonlocalDecl _ => []
  | .importStmt ln aliases => processImport ln aliases
  | .importFrom ln m names => processImportFrom ln m names
  | .exprStmt _ => []
  | .block body => stmtsImports body

def stmtsImports : List Stmt → List ImportRec
  | [] => []
  | s :: rest => stmtImports s ++ stmtsImports rest
end

/-- `ImportDetector.detect_imports` over a module body
(import_detector.py lines 35-53). -/
def detectImports (tree : List Stmt) : List ImportRec := stmtsImports tree

/-- First framework of the table whose name is a plain string prefix of the
module (the inner loop of `get_ui_frameworks_used`, which uses
`imp.module.startswith(framework)` with no trailing dot). -/
def frameworkOfModule (m : String) : Option String :=
  (UI_FRAMEWORKS.find? (fun fs => strStartsWith m fs.1)).map (fun fs => fs.1)

/-- `ImportDetector.get_ui_frameworks_used` (import_detector.py lines
148-156) on a file's detected imports: the set of framework names matched by
the UI-flagged imports. -/
def uiFrameworksUsed (imports : List ImportRec) : List String :=
  ((imports.filter (fun imp => imp.is_ui)).filterMap
    (fun imp => frameworkOfModule imp.module)).dedup

/-! ## Syntax analyzer: per-function walks -/

mutual
/-- UI-usage flags contributed by one expression and its descendants
(`ASTAnalyzer._detect_ui_usage`, ast_analyzer.py lines 174-197): a call whose
resolved callee name is a UI base class is flagged with that name; an
attribute access whose attribute is a common UI method name is flagged with
the literal string `".{attr}()"`. -/
def exprUi : Expr → List String
  | .name _ => []
  | .attribute v a =>
      (if UI_METHODS.contains a then ["." ++ a ++ "()"] else []) ++ exprUi v
  | .call f args =>
      (if UI_BASE_CLASSES.contains (getName f) then [getName f] else []) ++
        exprUi f ++ exprsUi args
  | .unresolvable => []

def exprsUi : List Expr → List String
  | [] => []
  | e :: rest => exprUi e ++ exprsUi rest
end

mutual
/-- UI-usage flags of all expressions under one statement; `ast.walk`
descends into nested function and class definitions as well. -/
def stmtUi : Stmt → List String
  | .functionDef _ _ _ _ body => stmtsUi body
  | .classDef _ _ _ bases body => exprsUi bases ++ stmtsUi body
  | .exprStmt e => exprUi e
  | .block body => stmtsUi body
  | _ => []

def stmtsUi : List Stmt → List String
  | [] => []
  | s :: rest => stmtUi s ++ stmtsUi rest
end

/-- The deduplicated UI-usage list of a function body
(`list(set(ui_usage))` in the source; set order is unspecified there). -/
def detectUiUsage (body : List Stmt) : List String := (stmtsUi body).dedup

mutual
/-- Callee names of all calls under one expression
(`ASTAnalyzer._detect_dependencies`, ast_analyzer.py lines 199-209):
empty resolved names and names starting with `"_"` are skipped. -/
def exprDeps : Expr → List String
  | .name _ => []
  | .attribute v _ => exprDeps v
  | .call f args =>
      (let n := getName f
       if n ≠ "" && !(strStartsWith n "_") then [n] else []) ++
        exprDeps f ++ exprsDeps args
  | .unresolvable => []

def exprsDeps : List Expr → List String
  | [] => []
  | e :: rest => exprDeps e ++ exprsDeps rest
end

mutual
def stmtDeps : Stmt → List String
  | .functionDef _ _ _ _ body => stmtsDeps body
  | .classDef _ _ _ bases body => exprsDeps bases ++ stmtsDeps body
  | .exprStmt e => exprDeps e
  | .block body => stmtsDeps body
  | _ => []

def stmtsDeps : List Stmt → List String
  | [] => []
  | s :: rest => stmtDeps s ++ stmtsDeps rest
end

/-- Deduplicated dependency list truncated to at most 10 entries
(`list(set(dependencies))[:10]`; the truncation order is unspecified in the
source, §9 of the spec flags it). -/
def detectDependencies (body : List Stmt) : List String :=
  ((stmtsDeps body).dedup).take 10

mutual
/-- `ASTAnalyzer._has_global_access` (ast_analyzer.py lines 211-216): any
`global` or `nonlocal` declaration at any nesting depth. -/
def stmtGlobal : Stmt → Bool
  | .functionDef _ _ _ _ body => stmtsGlobal body
  | .classDef _ _ _ _ body => stmtsGlobal body
  | .globalDecl _ => true
  | .nonlocalDecl _ => true
  | .block body => stmtsGlobal body
  | _ => false

def stmtsGlobal : List Stmt → Bool
  | [] => false
  | s :: rest => stmtGlobal s || stmtsGlobal rest
end

/-! ## Function, class and file records -/

/-- analysis_models `FunctionInfo`. -/
structure FunctionInfo where
  name : String
  start_line : Nat
  end_line : Nat
  loc : Nat
  is_pure : Bool
  ui_usage : List String
  dependencies : List String
  has_global_access : Bool
  deriving Repr, DecidableEq

/-- analysis_models `ClassInfo`. -/
structure ClassInfo where
  name : String
  bases : List String
  is_ui_class : Bool
  methods : List FunctionInfo
  loc : Nat
  start_line : Nat
  end_line : Nat
  deriving Repr, DecidableEq

/-- analysis_models `FileAnalysis`; `ui_percentage` is the exact rational
value of the float the source computes. -/
structure FileAnalysis where
  path : String
  imports : List ImportRec
  classes : List ClassInfo
  functions : List FunctionInfo
  loc : Nat
  is_ui_file : Bool
  is_logic_file : Bool
  is_mixed_file : Bool
  ui_percentage : ℚ
  deriving Repr, DecidableEq

/-- `node.end_lineno or start_line`: a missing (or zero, i.e. falsy)
`end_lineno` falls back to the start line. -/
def endLineOr (endLineno lineno : Nat) : Nat :=
  if endLineno = 0 then lineno else endLineno

/-- `ASTAnalyzer._analyze_function` (ast_analyzer.py lines 133-172) on a
function node with the given name, span and body. -/
def analyzeFunction (name : String) (lineno endLineno : Nat)
    (body : List Stmt) (is_method : Bool) : FunctionInfo :=
  let end_line := endLineOr endLineno lineno
  let loc := end_line - lineno + 1
  let ui_usage := detectUiUsage body
  let dependencies := detectDependencies body
  let has_global_access := stmtsGlobal body
  let is_pure := ui_usage.length = 0 && !has_global_access && !is_method
  { name := name
    start_line := lineno
    end_line := end_line
    loc := loc
    is_pure := is_pure
    ui_usage := ui_usage
    dependencies := dependencies
    has_global_access := has_global_access }

/-- The `ClassInfo` built for one class node (`ASTAnalyzer._extract_classes`
body, ast_analyzer.py lines 88-118): bases resolved textually, UI flag from
the base-class set, immediate-child function definitions as methods. -/
def classInfoOf (name : String) (lineno endLineno : Nat) (bases : List Expr)
    (body : List Stmt) : ClassInfo :=
  let baseNames := bases.map getName
  let is_ui_class := baseNames.any (fun b => UI_BASE_CLASSES.contains b)
  let methods := body.filterMap (fun item =>
    match item with
    | .functionDef _ n ln en b => some (analyzeFunction n ln en b true)
    | _ => none)
  let end_line := endLineOr endLineno lineno
  { name := name
    bases := baseNames
    is_ui_class := is_ui_class
    methods := methods
    loc := end_line - lineno + 1
    start_line := lineno
    end_line := end_line }

mutual
/-- All class records under one statement, as `ast.walk` finds every
`ClassDef` anywhere in the tree (nested classes included). -/
def stmtClasses : Stmt → List ClassInfo
  | .functionDef _ _ _ _ body => stmtsClasses body
  | .classDef n ln en bases body =>
      classInfoOf n ln en bases body :: stmtsClasses body
  | .block body => stmtsClasses body
  | _ => []

def stmtsClasses : List Stmt → List ClassInfo
  | [] => []
  | s :: rest => stmtClasses s ++ stmtsClasses rest
end

/-- `ASTAnalyzer._extract_classes` (ast_analyzer.py lines 83-120). -/
def extractClasses (tree : List Stmt) : List ClassInfo := stmtsClasses tree

/-- `ASTAnalyzer._extract_functions` (ast_analyzer.py lines 122-131): only
the module body's immediate function definitions. -/
def extractFunctions (tree : List Stmt) : List FunctionInfo :=
  tree.filterMap (fun s =>
    match s with
    | .functionDef _ n ln en body => some (analyzeFunction n ln en body false)
    | _ => none)

/-- `ASTAnalyzer._classify_file` (ast_analyzer.py lines 218-264), returning
`(is_ui_file, is_logic_file, is_mixed_file, ui_percentage)`. -/
def classifyFile (imports : List ImportRec) (classes : List ClassInfo)
    (functions : List FunctionInfo) : Bool × Bool × Bool × ℚ :=
  let has_ui_imports := imports.any (fun imp => imp.is_ui)
  let pure_functions := functions.filter (fun f => f.is_pure)
  let total_elements := classes.length + functions.length
  if total_elements = 0 then
    (has_ui_imports, !has_ui_imports, false, 0)
  else
    let ui_elements := (classes.filter (fun c => c.is_ui_class)).length +
      (functions.filter (fun f => f.ui_usage.length > 0)).length
    let ui_percentage : ℚ := ((ui_elements : ℚ) / (total_elements : ℚ)) * 100
    if 80 ≤ ui_percentage then
      (true, false, false, ui_percentage)
    else if ui_percentage ≤ 20 ∧ 0 < pure_functions.length then
      (false, true, false, ui_percentage)
    else
      (false, false, true, ui_percentage)

/-- The parsing boundary: `ast.parse` either fails with a `SyntaxError` or
yields a module body. -/
inductive ParseResult where
  | error
  | ok (tree : List Stmt)

/-- `ASTAnalyzer.analyze_file` (ast_analyzer.py lines 23-81) on a file whose
raw content splits into `lines` and parses to `pr`; `loc` is
`len(content.splitlines())` in both branches. -/
def analyzeFile (path : String) (lines : List String) (pr : ParseResult) :
    FileAnalysis :=
  match pr with
  | .error =>
      { path := path, imports := [], classes := [], functions := []
        loc := lines.length
        is_ui_file := false, is_logic_file := false, is_mixed_file := false
        ui_percentage := 0 }
  | .ok tree =>
      let imports := detectImports tree
      let classes := extractClasses tree
      let functions := extractFunctions tree
      let c := classifyFile imports classes functions
      { path := path, imports := imports, classes := classes
        functions := functions
        loc := lines.length
        is_ui_file := c.1, is_logic_file := c.2.1, is_mixed_file := c.2.2.1
        ui_percentage := c.2.2.2 }

/-! ## Analysis engine (core.py) -/

/-- Filesystem model for the discovery step: a named file or a named
directory with children.  A path is its list of segments from the root. -/
inductive FSEntry where
  | file (name : String)
  | dir (name : String) (children : List FSEntry)

/-- Python `name.endswith(".py")`, the effect of the `rglob("*.py")`
pattern on a file name. -/
def endsWithPy (name : String) : Bool := ".py".data.isSuffixOf name.data

/-- Python `name.startswith(".")`. -/
def startsWithDot (name : String) : Bool := strStartsWith name "."

mutual
/-- `path_obj.rglob("*.py")`: every descendant file whose name matches,
with its full segment path (the given prefix already includes the root's
own name). -/
def rglobPy (pre : List String) : FSEntry → List (List String)
  | .file n => if endsWithPy n then [pre ++ [n]] else []
  | .dir n children => rglobPyList (pre ++ [n]) children

/-- Recursive companion of `rglobPy` over a child list. -/
def rglobPyList (pre : List String) : List FSEntry → List (List String)
  | [] => []
  | e :: rest => rglobPy pre e ++ rglobPyList pre rest
end

/-- The discovery filter of `AnalysisEngine.analyze_project` (core.py lines
49-52): drop paths with a `__pycache__` segment anywhere in `f.parts` and
files whose name starts with a dot. -/
def discoveryFilter (p : List String) : Bool :=
  !(p.contains "__pycache__") && !(startsWithDot (p.getLastD ""))

/-- The file list of `AnalysisEngine.analyze_project` (core.py lines 44-52):
a root that is a single file is taken as-is, with no pattern match and no
filtering; a directory is searched recursively and filtered.  `rootPre` is
the segment path of the root's parent directory. -/
def pythonFiles (rootPre : List String) (root : FSEntry) : List (List String) :=
  match root with
  | .file n => [rootPre ++ [n]]
  | .dir n children =>
      (rglobPyList (rootPre ++ [n]) children).filter discoveryFilter

/-- One input file of a project run: the analyzer sees its path, its raw
line list and its parse outcome. -/
structure SourceFile where
  path : String
  lines : List String
  parse : ParseResult

/-- The per-run analysis list: each file analyzed independently (the
per-file `try/except` of core.py lines 56-63 catches I/O errors, which are
outside this model; syntax errors are already non-fatal inside
`analyzeFile`). -/
def analyzeAll (inputs : List SourceFile) : List FileAnalysis :=
  inputs.map (fun s => analyzeFile s.path s.lines s.parse)

/-- analysis_models `ExtractionSuggestion`. -/
structure ExtractionSuggestion where
  file : String
  function : String
  start_line : Nat
  end_line : Nat
  reason : String
  web_ready : Bool
  estimated_effort : String
  dependencies : List String
  deriving Repr, DecidableEq

/-- `AnalysisEngine._generate_extraction_suggestions` (core.py lines
105-146): Mixed files only; first the pure functions of at least 3 lines
(low effort), then the non-pure functions with at most 2 UI usages and at
least 5 lines (medium effort, reason joining the usage list). -/
def genExtractionSuggestions (files : List FileAnalysis) :
    List ExtractionSuggestion :=
  files.flatMap (fun file =>
    if file.is_mixed_file then
      (file.functions.filterMap (fun func =>
        if func.is_pure && decide (func.loc ≥ 3) then
          some { file := file.path, function := func.name
                 start_line := func.start_line, end_line := func.end_line
                 reason := "Pure function with no UI dependencies"
                 web_ready := true, estimated_effort := "low"
                 dependencies := func.dependencies }
        else none)) ++
      (file.functions.filterMap (fun func =>
        if !func.is_pure && decide (func.ui_usage.length ≤ 2) &&
            decide (func.loc ≥ 5) then
          some { file := file.path, function := func.name
                 start_line := func.start_line, end_line := func.end_line
                 reason := "Minimal UI usage: " ++
                   String.intercalate ", " func.ui_usage
                 web_ready := false, estimated_effort := "medium"
                 dependencies := func.dependencies }
        else none))
    else [])

/-- The complexity tally of `AnalysisEngine._generate_web_conversion_guide`
(core.py lines 227-234): `total_ui_classes = sum(len(f.classes) for f in
ui_files)` — the length of each UI file's whole class list — then the
20/10 thresholds. -/
def estimatedComplexity (ui_files : List FileAnalysis) : String :=
  let total_ui_classes := (ui_files.map (fun f => f.classes.length)).sum
  if total_ui_classes > 20 then "high"
  else if total_ui_classes > 10 then "medium"
  else "low"

/-- Python `round(q, 2)` modelled on exact rationals (round-to-nearest into
hundredths; the half-to-even tie rule of floats is irrelevant to every value
reached in the claims). -/
def round2 (q : ℚ) : ℚ := ((round (q * 100) : ℤ) : ℚ) / 100

/-- `AnalysisEngine._calculate_web_ready_percentage` (core.py lines
245-268). -/
def webReadyPercentage (files : List FileAnalysis) : ℚ :=
  if files = [] then 0
  else
    let total_loc := (files.map (fun f => f.loc)).sum
    if total_loc = 0 then 0
    else
      let logic_loc := ((files.filter (fun f => f.is_logic_file)).map
        (fun f => f.loc)).sum
      let mixed_loc := ((files.filter (fun f => f.is_mixed_file)).map
        (fun f => ((f.functions.filter (fun fn => fn.is_pure)).map
          (fun fn => fn.loc)).sum)).sum
      let web_ready_loc := logic_loc + mixed_loc
      round2 (((web_ready_loc : ℚ) / (total_loc : ℚ)) * 100)

/-- The engine-visible `ASTAnalyzer.ui_frameworks` state after a run:
`analyze_file` overwrites it on every successful parse (ast_analyzer.py
line 57) and leaves it untouched on a syntax error (the early return at
line 43), so the run folds over the inputs from the initial state (empty
for a freshly constructed engine). -/
def runUiFrameworks (init : List String) (inputs : List SourceFile) :
    List String :=
  inputs.foldl (fun acc s =>
    match s.parse with
    | .error => acc
    | .ok tree => uiFrameworksUsed (detectImports tree)) init

/-- The project-level summary assembled by `analyze_project` (core.py lines
82-91), restricted to the fields the claims speak about. -/
structure ProjectSummary where
  total_loc : Nat
  ui_files_count : Nat
  logic_files_count : Nat
  mixed_files_count : Nat
  total_classes : Nat
  total_functions : Nat
  ui_frameworks : List String
  web_ready_percentage : ℚ
  estimated_complexity : String

/-- `AnalysisEngine.analyze_project` after discovery: analyses, partition by
the classification flags, summary fields, guide complexity. -/
def analyzeProject (inputs : List SourceFile) : ProjectSummary :=
  let analyses := analyzeAll inputs
  let ui_files := analyses.filter (fun f => f.is_ui_file)
  let logic_files := analyses.filter (fun f => f.is_logic_file)
  let mixed_files := analyses.filter (fun f => f.is_mixed_file)
  { total_loc := (analyses.map (fun f => f.loc)).sum
    ui_files_count := ui_files.length
    logic_files_count := logic_files.length
    mixed_files_count := mixed_files.length
    total_classes := (analyses.map (fun f => f.classes.length)).sum
    total_functions := (analyses.map (fun f => f.functions.length)).sum
    ui_frameworks := runUiFrameworks [] inputs
    web_ready_percentage := webReadyPercentage analyses
    estimated_complexity := estimatedComplexity ui_files }

/-! ## Spec-side definitions

These follow the wording of the spec/claims (not the source) and exist to be
compared against the source-derived definitions above. -/

/-- The "specific submodule suffix" of the claim wording: the part of the
module name after `"{framework}."`. -/
def suffixAfterFramework (fw m : String) : String :=
  ⟨m.data.drop (fw.data.length + 1)⟩

/-- Claim wording for C7: a `from`-import is UI iff the module equals a
known framework; or it is a dotted descendant of a framework whose table
entry declares wildcard support or lists the specific submodule suffix; or
any individually imported name is a known UI base class. -/
def claimUiImportFrom (module : String) (names : List String) : Prop :=
  (∃ fs ∈ UI_FRAMEWORKS, module = fs.1) ∨
  (∃ fs ∈ UI_FRAMEWORKS,
    (∃ r, module.data = (fs.1 ++ ".").data ++ r) ∧
    ("*" ∈ fs.2 ∨ suffixAfterFramework fs.1 module ∈ fs.2)) ∨
  (∃ n ∈ names, n ∈ UI_BASE_CLASSES)

/-- Claim wording for C6: complexity from a count — "high" above 20,
"medium" above 10, else "low". -/
def claimComplexity (n : Nat) : String :=
  if n > 20 then "high" else if n > 10 then "medium" else "low"

/-- The total number of UI-flagged classes across a list of analyses (the
count the C6 claim speaks about). -/
def numUiClasses (files : List FileAnalysis) : Nat :=
  (files.map (fun f => (f.classes.filter (fun c => c.is_ui_class)).length)).sum

/-- Claim wording for C5: the union, over all successfully analyzed files,
of the UI framework names observed in that file's UI imports (a file whose
parse fails is analyzed to an empty record and so observes none). -/
def unionUiFrameworks (inputs : List SourceFile) : List String :=
  (inputs.flatMap (fun s =>
    match s.parse with
    | .error => []
    | .ok tree => uiFrameworksUsed (detectImports tree))).dedup

/-- The module body of the last input that parsed successfully, starting
from a given accumulator (generalized for induction). -/
def lastParsedFrom (acc : Option (List Stmt)) (inputs : List SourceFile) :
    Option (List Stmt) :=
  inputs.foldl (fun a s =>
    match s.parse with
    | .error => a
    | .ok tree => some tree) acc

/-- The module body of the last input that parsed successfully. -/
def lastParsedTree (inputs : List SourceFile) : Option (List Stmt) :=
  lastParsedFrom none inputs

/-! ## Well-formedness of parsed line spans

CPython's parser reports 1-based inclusive line spans, and the spans of
distinct top-level statements are disjoint and ordered within the file.
The analyzer relies on this (it never re-checks it), so the bound claims
about summed function line counts hypothesize it. -/

/-- The `(start_line, end_line)` spans of the module body's top-level
function definitions, normalized exactly as `analyzeFunction` normalizes
them. -/
def fnSpans (tree : List Stmt) : List (Nat × Nat) :=
  tree.filterMap (fun s =>
    match s with
    | .functionDef _ _ ln en _ => some (ln, endLineOr en ln)
    | _ => none)

/-- The spans are ordered, disjoint, and lie within `[lo, hi]`. -/
def SpansOK : List (Nat × Nat) → Nat → Nat → Prop
  | [], _, _ => True
  | (s, e) :: rest, lo, hi => lo ≤ s ∧ s ≤ e ∧ e ≤ hi ∧ SpansOK rest (e + 1) hi

/-- A source file is well formed when its parsed top-level function spans
fit the guarantee of the real parser. -/
def WellFormedSource (s : SourceFile) : Prop :=
  match s.parse with
  | .error => True
  | .ok tree => SpansOK (fnSpans tree) 1 s.lines.length

/-! ## Concrete demonstration inputs (used by witnesses and
counterexamples) -/

/-- A file whose parse yields one 6-line top-level function that touches a
global variable and no UI: `total_elements = 1`, no UI elements, no pure
function, hence a Mixed file. -/
def demoMixedTree : List Stmt :=
  [.functionDef false "g" 1 6 [.globalDecl ["state"], .exprStmt (.name "state")]]

/-- The analysis of the mixed demo file. -/
def demoMixedFile : FileAnalysis :=
  analyzeFile "mixed.py" ["a", "b", "c", "d", "e", "f"] (.ok demoMixedTree)

/-- A 3-line file holding one pure top-level function: a Logic file. -/
def demoLogicSource : SourceFile :=
  { path := "logic.py"
    lines := ["def f():", "    return 1", "x = f()"]
    parse := .ok [.functionDef false "f" 1 2 [.exprStmt (.name "y")],
                  .exprStmt (.call (.name "f") [])] }

/-- An empty file: zero lines, empty module body.  It parses, has no
elements and no imports, and is classified as a Logic file with `loc = 0`. -/
def demoEmptySource : SourceFile :=
  { path := "empty.py", lines := [], parse := .ok [] }

/-- A file importing tkinter. -/
def demoTkSource : SourceFile :=
  { path := "tk.py"
    lines := ["import tkinter"]
    parse := .ok [.importStmt 1 [("tkinter", none)]] }

/-- A file importing only `os`. -/
def demoOsSource : SourceFile :=
  { path := "os.py"
    lines := ["import os"]
    parse := .ok [.importStmt 1 [("os", none)]] }

/-- A file with 17 UI classes and 4 plain classes: `ui_percentage` is
`1700/21 ≈ 80.95 ≥ 80`, so it is a UI file, and its class list has 21
entries of which only 17 are UI classes. -/
def demoUiHeavyTree : List Stmt :=
  List.replicate 17 (Stmt.classDef "W" 1 1 [.name "QWidget"] []) ++
  List.replicate 4 (Stmt.classDef "H" 1 1 [.name "object"] [])

/-- The UI-heavy demo as an engine input. -/
def demoUiHeavySource : SourceFile :=
  { path := "big.py", lines := ["x"], parse := .ok demoUiHeavyTree }

/-- A file with 4 UI classes and 1 plain class: `ui_percentage` is exactly
`4/5 * 100 = 80`. -/
def demoUi80Tree : List Stmt :=
  [.classDef "W1" 1 1 [.name "QWidget"] [],
   .classDef "W2" 1 1 [.name "QWidget"] [],
   .classDef "W3" 1 1 [.name "QWidget"] [],
   .classDef "W4" 1 1 [.name "QWidget"] [],
   .classDef "H" 1 1 [.name "object"] []]

/-- A class with one method, used to witness the purity invariant. -/
def demoClassTree : List Stmt :=
  [.classDef "C" 1 3 [.name "object"]
    [.functionDef false "m" 2 3 [.exprStmt (.name "x")]]]

/-! ## Helper lemmas -/

/-- A method record (`is_method = true`) is never pure: the conjunction in
`_analyze_function` carries `not is_method`. -/
lemma analyzeFunction_method_impure (name : String) (ln en : Nat)
    (body : List Stmt) :
    (analyzeFunction name ln en body true).is_pure = false := by
  simp [analyzeFunction]

/-- Every method of a class record built by `classInfoOf` is impure. -/
lemma classInfoOf_methods_impure (n : String) (ln en : Nat)
    (bases : List Expr) (body : List Stmt) :
    ∀ mth ∈ (classInfoOf n ln en bases body).methods, mth.is_pure = false := by
  intro mth h
  simp only [classInfoOf, List.mem_filterMap] at h
  obtain ⟨item, _, hitem⟩ := h
  cases item <;> simp only [Option.some.injEq, reduceCtorEq] at hitem
  subst hitem
  exact analyzeFunction_method_impure ..

mutual
/-- Every class record collected from a statement comes from `classInfoOf`. -/
theorem stmtClasses_shape : ∀ (s : Stmt) (c : ClassInfo), c ∈ stmtClasses s →
    ∃ n ln en bases body, c = classInfoOf n ln en bases body
  | .functionDef _ _ _ _ body, c, h =>
      stmtsClasses_shape body c (by simpa [stmtClasses] using h)
  | .classDef n ln en bases body, c, h => by
      simp only [stmtClasses, List.mem_cons] at h
      rcases h with h | h
      · exact ⟨n, ln, en, bases, body, h⟩
      · exact stmtsClasses_shape body c h
  | .block body, c, h =>
      stmtsClasses_shape body c (by simpa [stmtClasses] using h)
  | .globalDecl _, c, h => absurd h (by simp [stmtClasses])
  | .nonlocalDecl _, c, h => absurd h (by simp [stmtClasses])
  | .importStmt _ _, c, h => absurd h (by simp [stmtClasses])
  | .importFrom _ _ _, c, h => absurd h (by simp [stmtClasses])
  | .exprStmt _, c, h => absurd h (by simp [stmtClasses])

/-- Companion of `stmtClasses_shape` over statement lists. -/
theorem stmtsClasses_shape : ∀ (l : List Stmt) (c : ClassInfo),
    c ∈ stmtsClasses l →
    ∃ n ln en bases body, c = classInfoOf n ln en bases body
  | [], c, h => absurd h (by simp [stmtsClasses])
  | s :: rest, c, h => by
      simp only [stmtsClasses, List.mem_append] at h
      rcases h with h | h
      · exact stmtClasses_shape s c h
      · exact stmtsClasses_shape rest c h
end

/-- For a file with at least one element, `_classify_file` sets exactly one
flag: each reachable branch returns one `true` and two `false`. -/
lemma classifyFile_cases (imports : List ImportRec) (classes : List ClassInfo)
    (functions : List FunctionInfo)
    (h : classes.length + functions.length ≠ 0) :
    ((classifyFile imports classes functions).1 = true ∧
     (classifyFile imports classes functions).2.1 = false ∧
     (classifyFile imports classes functions).2.2.1 = false) ∨
    ((classifyFile imports classes functions).1 = false ∧
     (classifyFile imports classes functions).2.1 = true ∧
     (classifyFile imports classes functions).2.2.1 = false) ∨
    ((classifyFile imports classes functions).1 = false ∧
     (classifyFile imports classes functions).2.1 = false ∧
     (classifyFile imports classes functions).2.2.1 = true) := by
  unfold classifyFile
  dsimp only
  rw [if_neg h]
  split
  · exact Or.inl ⟨rfl, rfl, rfl⟩
  · split
    · exact Or.inr (Or.inl ⟨rfl, rfl, rfl⟩)
    · exact Or.inr (Or.inr ⟨rfl, rfl, rfl⟩)

/-- For a file with at least one element, the returned percentage is the
ratio the source computes, whatever branch is taken. -/
lemma classifyFile_pct (imports : List ImportRec) (classes : List ClassInfo)
    (functions : List FunctionInfo)
    (h : classes.length + functions.length ≠ 0) :
    (classifyFile imports classes functions).2.2.2 =
      ((((classes.filter (fun c => c.is_ui_class)).length +
         (functions.filter (fun f => f.ui_usage.length > 0)).length : Nat) : ℚ) /
        ((classes.length + functions.length : Nat) : ℚ)) * 100 := by
  unfold classifyFile
  dsimp only
  rw [if_neg h]
  split
  · rfl
  · split <;> rfl

/-- Boolean character-list matching agrees with existence of a remainder. -/
lemma isPrefixOfCharList_iff : ∀ (l₁ l₂ : List Char),
    l₁.isPrefixOf l₂ = true ↔ ∃ r, l₂ = l₁ ++ r := by
  intro l₁
  induction l₁ with
  | nil => intro l₂; simp [List.isPrefixOf]
  | cons a as ih =>
      intro l₂
      cases l₂ with
      | nil => simp [List.isPrefixOf]
      | cons b bs =>
          simp only [List.isPrefixOf, Bool.and_eq_true, beq_iff_eq, ih]
          constructor
          · rintro ⟨rfl, r, rfl⟩
            exact ⟨r, rfl⟩
          · rintro ⟨r, hr⟩
            injection hr with h1 h2
            exact ⟨h1.symm, r, h2⟩

/-- `str.startswith` agrees with existence of a remainder. -/
lemma strStartsWith_iff (s p : String) :
    strStartsWith s p = true ↔ ∃ r, s.data = p.data ++ r :=
  isPrefixOfCharList_iff p.data s.data

/-- Dropping through the first dot of `fw ++ "." ++ r` for dot-free `fw`
yields exactly `r`. -/
lemma afterFirstDotAux_append (fw : List Char) (h : ('.' : Char) ∉ fw)
    (r : List Char) : afterFirstDotAux (fw ++ '.' :: r) = r := by
  induction fw with
  | nil => simp [afterFirstDotAux]
  | cons c cs ih =>
      simp only [List.mem_cons, not_or] at h
      simp [afterFirstDotAux, Ne.symm h.1, ih h.2]

/-- No framework name in the table contains a dot. -/
lemma frameworks_dot_free : ∀ fs ∈ UI_FRAMEWORKS, ('.' : Char) ∉ fs.1.data := by
  decide

/-- The frameworks state after a run equals the frameworks of the last
parsed input, generalized over the starting accumulator. -/
lemma runUiFrameworks_lastParsedFrom : ∀ (inputs : List SourceFile)
    (acc : Option (List Stmt)),
    runUiFrameworks
      (acc.elim [] (fun t => uiFrameworksUsed (detectImports t))) inputs =
    (lastParsedFrom acc inputs).elim []
      (fun t => uiFrameworksUsed (detectImports t)) := by
  intro inputs
  induction inputs with
  | nil => intro acc; rfl
  | cons s rest ih =>
      intro acc
      cases hp : s.parse with
      | error =>
          have h1 : runUiFrameworks
              (acc.elim [] (fun t => uiFrameworksUsed (detectImports t)))
              (s :: rest) = runUiFrameworks
              (acc.elim [] (fun t => uiFrameworksUsed (detectImports t)))
              rest := by
            simp [runUiFrameworks, hp]
          have h2 : lastParsedFrom acc (s :: rest) =
              lastParsedFrom acc rest := by
            simp [lastParsedFrom, hp]
          rw [h1, h2]
          exact ih acc
      | ok tree =>
          have h1 : runUiFrameworks
              (acc.elim [] (fun t => uiFrameworksUsed (detectImports t)))
              (s :: rest) = runUiFrameworks
              ((some tree).elim []
                (fun t => uiFrameworksUsed (detectImports t))) rest := by
            simp [runUiFrameworks, hp]
          have h2 : lastParsedFrom acc (s :: rest) =
              lastParsedFrom (some tree) rest := by
            simp [lastParsedFrom, hp]
          rw [h1, h2]
          exact ih (some tree)

/-- Rational rounding is monotone. -/
lemma round_le_round (a b : ℚ) (h : a ≤ b) : round a ≤ round b := by
  rw [round_eq, round_eq]
  exact Int.floor_le_floor (by linarith)

/-- Rounding to hundredths keeps a value of `[0, 100]` inside `[0, 100]`. -/
lemma round2_bounds (q : ℚ) (h0 : 0 ≤ q) (h100 : q ≤ 100) :
    0 ≤ round2 q ∧ round2 q ≤ 100 := by
  have hlo : (0 : ℤ) ≤ round (q * 100) := by
    have h1 := round_le_round 0 (q * 100) (by nlinarith)
    simp only [round_zero] at h1
    exact h1
  have hhi : round (q * 100) ≤ 10000 := by
    have h1 := round_le_round (q * 100) 10000 (by nlinarith)
    have h2 : round (10000 : ℚ) = 10000 := by
      have h3 := round_intCast (α := ℚ) 10000
      simpa using h3
    rw [h2] at h1
    exact h1
  unfold round2
  constructor
  · apply div_nonneg _ (by norm_num)
    exact_mod_cast hlo
  · rw [div_le_iff₀ (by norm_num)]
    calc ((round (q * 100) : ℤ) : ℚ) ≤ 10000 := by exact_mod_cast hhi
      _ = 100 * 100 := by norm_num

/-- Rounding to hundredths fixes 100. -/
lemma round2_hundred : round2 100 = 100 := by
  unfold round2
  rw [show ((100 : ℚ) * 100) = ((10000 : ℤ) : ℚ) by norm_num,
    round_intCast]
  norm_num

/-- Ordered disjoint spans inside `[lo, hi]` have total length at most
`hi + 1 - lo`. -/
lemma spansOK_sum_le : ∀ (spans : List (Nat × Nat)) (lo hi : Nat),
    SpansOK spans lo hi →
    ((spans.map (fun p => p.2 - p.1 + 1)).sum ≤ hi + 1 - lo) := by
  intro spans
  induction spans with
  | nil => intro lo hi _; simp
  | cons p rest ih =>
      intro lo hi h
      obtain ⟨s, e⟩ := p
      obtain ⟨h1, h2, h3, h4⟩ := h
      have h5 := ih (e + 1) hi h4
      simp only [List.map_cons, List.sum_cons]
      omega

/-- The line counts of the extracted top-level functions are exactly the
lengths of the module's top-level function spans. -/
lemma extractFunctions_loc_eq : ∀ tree : List Stmt,
    (extractFunctions tree).map (fun f => f.loc) =
      (fnSpans tree).map (fun p => p.2 - p.1 + 1) := by
  intro tree
  induction tree with
  | nil => rfl
  | cons s rest ih =>
      cases s with
      | functionDef a n ln en body =>
          show (analyzeFunction n ln en body false ::
              extractFunctions rest).map (fun f => f.loc) =
            ((ln, endLineOr en ln) :: fnSpans rest).map
              (fun p => p.2 - p.1 + 1)
          simp only [List.map_cons]
          rw [ih]
          rfl
      | classDef n ln en bases body => exact ih
      | globalDecl names => exact ih
      | nonlocalDecl names => exact ih
      | importStmt ln aliases => exact ih
      | importFrom ln m names => exact ih
      | exprStmt e => exact ih
      | block body => exact ih

/-- Summed line counts of the pure top-level functions are at most the
summed line counts of all top-level functions. -/
lemma pure_loc_sum_le (tree : List Stmt) :
    (((extractFunctions tree).filter (fun f => f.is_pure)).map
      (fun f => f.loc)).sum ≤
      ((extractFunctions tree).map (fun f => f.loc)).sum := by
  apply List.Sublist.sum_le_sum
  · exact ((List.filter_sublist _).map _)
  · intro x _
    exact Nat.zero_le x

/-- In a well-formed source file, the pure top-level functions' summed line
counts never exceed the file's raw line count. -/
lemma analyzeFile_pure_le_loc (s : SourceFile) (hwf : WellFormedSource s) :
    (((analyzeFile s.path s.lines s.parse).functions.filter
      (fun f => f.is_pure)).map (fun f => f.loc)).sum ≤
      (analyzeFile s.path s.lines s.parse).loc := by
  cases hp : s.parse with
  | error => simp [analyzeFile]
  | ok tree =>
      have h0 : SpansOK (fnSpans tree) 1 s.lines.length := by
        unfold WellFormedSource at hwf
        rw [hp] at hwf
        exact hwf
      have h1 := spansOK_sum_le (fnSpans tree) 1 s.lines.length h0
      have hfn : (analyzeFile s.path s.lines (.ok tree)).functions =
          extractFunctions tree := rfl
      have hloc : (analyzeFile s.path s.lines (.ok tree)).loc =
          s.lines.length := rfl
      rw [hfn, hloc]
      calc (((extractFunctions tree).filter (fun f => f.is_pure)).map
            (fun f => f.loc)).sum
          ≤ ((extractFunctions tree).map (fun f => f.loc)).sum :=
            pure_loc_sum_le tree
        _ = ((fnSpans tree).map (fun p => p.2 - p.1 + 1)).sum :=
            by rw [extractFunctions_loc_eq]
        _ ≤ s.lines.length + 1 - 1 := h1
        _ = s.lines.length := by omega

/-- No analysis is simultaneously a Logic file and a Mixed file. -/
lemma analyzeFile_not_logic_and_mixed (path : String) (lines : List String)
    (pr : ParseResult) :
    ¬((analyzeFile path lines pr).is_logic_file = true ∧
      (analyzeFile path lines pr).is_mixed_file = true) := by
  cases pr with
  | error => simp [analyzeFile]
  | ok tree =>
      by_cases h : (extractClasses tree).length +
          (extractFunctions tree).length = 0
      · rintro ⟨-, hm⟩
        have hm' : (analyzeFile path lines (.ok tree)).is_mixed_file =
            false := by
          show (classifyFile (detectImports tree) (extractClasses tree)
            (extractFunctions tree)).2.2.1 = false
          unfold classifyFile
          dsimp only
          rw [if_pos h]
        rw [hm'] at hm
        exact absurd hm (by simp)
      · have hflags := classifyFile_cases (detectImports tree)
          (extractClasses tree) (extractFunctions tree) h
        rintro ⟨hl, hm⟩
        have hl' : (classifyFile (detectImports tree) (extractClasses tree)
            (extractFunctions tree)).2.1 = true := hl
        have hm' : (classifyFile (detectImports tree) (extractClasses tree)
            (extractFunctions tree)).2.2.1 = true := hm
        rcases hflags with ⟨-, h2, h3⟩ | ⟨-, h2, h3⟩ | ⟨-, h2, h3⟩ <;>
          simp [h2, h3] at hl' hm'

/-- Logic LOC plus pure-function LOC of Mixed files is at most total LOC,
assuming per-file flag exclusivity and the per-file pure-LOC bound. -/
lemma webLoc_le_total : ∀ (l : List FileAnalysis),
    (∀ f ∈ l, ¬(f.is_logic_file = true ∧ f.is_mixed_file = true)) →
    (∀ f ∈ l, ((f.functions.filter (fun fn => fn.is_pure)).map
      (fun fn => fn.loc)).sum ≤ f.loc) →
    ((l.filter (fun f => f.is_logic_file)).map (fun f => f.loc)).sum +
      ((l.filter (fun f => f.is_mixed_file)).map (fun f =>
        ((f.functions.filter (fun fn => fn.is_pure)).map
          (fun fn => fn.loc)).sum)).sum ≤
      (l.map (fun f => f.loc)).sum := by
  intro l
  induction l with
  | nil => intro _ _; simp
  | cons f rest ih =>
      intro hexcl hpure
      have hrest := ih (fun g hg => hexcl g (List.mem_cons_of_mem f hg))
        (fun g hg => hpure g (List.mem_cons_of_mem f hg))
      have hf := hpure f (List.mem_cons_self f rest)
      have hfe := hexcl f (List.mem_cons_self f rest)
      cases hl : f.is_logic_file <;> cases hm : f.is_mixed_file
      case false.false => simp [List.filter_cons, hl, hm]; omega
      case false.true => simp [List.filter_cons, hl, hm]; omega
      case true.false => simp [List.filter_cons, hl, hm]; omega
      case true.true => exact absurd ⟨hl, hm⟩ hfe

/-! ## Claim theorems -/

/-- Claim C2: a `FunctionRecord` is pure iff its UI-usage set is empty, it
has no global/nonlocal access, and it is not a class method; and every
method record of any class record of any analysis is impure. -/
theorem c2_purity_invariant :
    (∀ (name : String) (ln en : Nat) (body : List Stmt) (m : Bool),
      ((analyzeFunction name ln en body m).is_pure = true ↔
        (analyzeFunction name ln en body m).ui_usage = [] ∧
        (analyzeFunction name ln en body m).has_global_access = false ∧
        m = false)) ∧
    (∀ (path : String) (lines : List String) (tree : List Stmt),
      ∀ c ∈ (analyzeFile path lines (.ok tree)).classes,
      ∀ mth ∈ c.methods, mth.is_pure = false) := by
  constructor
  · intro name ln en body m
    simp [analyzeFunction, List.length_eq_zero, and_assoc]
  · intro path lines tree c hc mth hm
    have hc' : c ∈ extractClasses tree := by
      simpa [analyzeFile] using hc
    obtain ⟨n, ln, en, bases, body, rfl⟩ := stmtsClasses_shape tree c hc'
    exact classInfoOf_methods_impure n ln en bases body mth hm

/-- Witness for C2 at concrete inputs: a pure top-level function, and an
impure method reached through a concrete file analysis. -/
theorem c2_purity_invariant_witness :
    (analyzeFunction "f" 1 3 [.exprStmt (.name "x")] false).is_pure = true ∧
    (analyzeFunction "m" 2 3 [.exprStmt (.name "x")] true).is_pure = false :=
  ⟨(c2_purity_invariant.1 "f" 1 3 [.exprStmt (.name "x")] false).mpr
      ⟨by decide, by decide, rfl⟩,
   c2_purity_invariant.2 "cls.py" [] demoClassTree
     (classInfoOf "C" 1 3 [.name "object"]
       [.functionDef false "m" 2 3 [.exprStmt (.name "x")]])
     (by decide)
     (analyzeFunction "m" 2 3 [.exprStmt (.name "x")] true)
     (by decide)⟩

/-- Claim C3: a successfully parsed file with at least one class or
top-level function has exactly one of the three classification flags set. -/
theorem c3_exactly_one_flag (path : String) (lines : List String)
    (tree : List Stmt)
    (h : 1 ≤ (analyzeFile path lines (.ok tree)).classes.length +
      (analyzeFile path lines (.ok tree)).functions.length) :
    ((analyzeFile path lines (.ok tree)).is_ui_file = true ∧
     (analyzeFile path lines (.ok tree)).is_logic_file = false ∧
     (analyzeFile path lines (.ok tree)).is_mixed_file = false) ∨
    ((analyzeFile path lines (.ok tree)).is_ui_file = false ∧
     (analyzeFile path lines (.ok tree)).is_logic_file = true ∧
     (analyzeFile path lines (.ok tree)).is_mixed_file = false) ∨
    ((analyzeFile path lines (.ok tree)).is_ui_file = false ∧
     (analyzeFile path lines (.ok tree)).is_logic_file = false ∧
     (analyzeFile path lines (.ok tree)).is_mixed_file = true) := by
  have h' : (extractClasses tree).length + (extractFunctions tree).length ≠ 0 := by
    have h2 : (analyzeFile path lines (.ok tree)).classes =
        extractClasses tree := rfl
    have h3 : (analyzeFile path lines (.ok tree)).functions =
        extractFunctions tree := rfl
    rw [h2, h3] at h
    omega
  exact classifyFile_cases (detectImports tree) (extractClasses tree)
    (extractFunctions tree) h'

/-- Witness for C3: the single-pure-function demo file has exactly one flag
set (the Logic flag). -/
theorem c3_exactly_one_flag_witness :
    ((analyzeFile "logic.py" ["def f():", "    return 1", "x = f()"]
        (.ok [.functionDef false "f" 1 2 [.exprStmt (.name "y")],
              .exprStmt (.call (.name "f") [])])).is_ui_file = true ∧
     (analyzeFile "logic.py" ["def f():", "    return 1", "x = f()"]
        (.ok [.functionDef false "f" 1 2 [.exprStmt (.name "y")],
              .exprStmt (.call (.name "f") [])])).is_logic_file = false ∧
     (analyzeFile "logic.py" ["def f():", "    return 1", "x = f()"]
        (.ok [.functionDef false "f" 1 2 [.exprStmt (.name "y")],
              .exprStmt (.call (.name "f") [])])).is_mixed_file = false) ∨
    ((analyzeFile "logic.py" ["def f():", "    return 1", "x = f()"]
        (.ok [.functionDef false "f" 1 2 [.exprStmt (.name "y")],
              .exprStmt (.call (.name "f") [])])).is_ui_file = false ∧
     (analyzeFile "logic.py" ["def f():", "    return 1", "x = f()"]
        (.ok [.functionDef false "f" 1 2 [.exprStmt (.name "y")],
              .exprStmt (.call (.name "f") [])])).is_logic_file = true ∧
     (analyzeFile "logic.py" ["def f():", "    return 1", "x = f()"]
        (.ok [.functionDef false "f" 1 2 [.exprStmt (.name "y")],
              .exprStmt (.call (.name "f") [])])).is_mixed_file = false) ∨
    ((analyzeFile "logic.py" ["def f():", "    return 1", "x = f()"]
        (.ok [.functionDef false "f" 1 2 [.exprStmt (.name "y")],
              .exprStmt (.call (.name "f") [])])).is_ui_file = false ∧
     (analyzeFile "logic.py" ["def f():", "    return 1", "x = f()"]
        (.ok [.functionDef false "f" 1 2 [.exprStmt (.name "y")],
              .exprStmt (.call (.name "f") [])])).is_logic_file = false ∧
     (analyzeFile "logic.py" ["def f():", "    return 1", "x = f()"]
        (.ok [.functionDef false "f" 1 2 [.exprStmt (.name "y")],
              .exprStmt (.call (.name "f") [])])).is_mixed_file = true) :=
  c3_exactly_one_flag "logic.py" ["def f():", "    return 1", "x = f()"]
    [.functionDef false "f" 1 2 [.exprStmt (.name "y")],
     .exprStmt (.call (.name "f") [])] (by decide)

/-- Claim C1: for a parsed file with at least one element,
`ui_percentage` is `100 * uiElements / totalElements`, and at the exact
threshold values: 80 classifies as UI; 20 with a pure function classifies as
Logic; 20 without a pure function classifies as Mixed. -/
theorem c1_threshold_boundaries (path : String) (lines : List String)
    (tree : List Stmt)
    (h : 1 ≤ (analyzeFile path lines (.ok tree)).classes.length +
      (analyzeFile path lines (.ok tree)).functions.length) :
    ((analyzeFile path lines (.ok tree)).ui_percentage =
      100 * ((((analyzeFile path lines (.ok tree)).classes.filter
          (fun c => c.is_ui_class)).length +
        (((analyzeFile path lines (.ok tree)).functions.filter
          (fun f => f.ui_usage ≠ [])).length) : ℚ)) /
        (((analyzeFile path lines (.ok tree)).classes.length +
          (analyzeFile path lines (.ok tree)).functions.length : Nat) : ℚ)) ∧
    ((analyzeFile path lines (.ok tree)).ui_percentage = 80 →
      (analyzeFile path lines (.ok tree)).is_ui_file = true) ∧
    ((analyzeFile path lines (.ok tree)).ui_percentage = 20 →
      1 ≤ ((analyzeFile path lines (.ok tree)).functions.filter
        (fun f => f.is_pure)).length →
      (analyzeFile path lines (.ok tree)).is_logic_file = true) ∧
    ((analyzeFile path lines (.ok tree)).ui_percentage = 20 →
      ((analyzeFile path lines (.ok tree)).functions.filter
        (fun f => f.is_pure)).length = 0 →
      (analyzeFile path lines (.ok tree)).is_mixed_file = true) := by
  have hcl : (analyzeFile path lines (.ok tree)).classes =
      extractClasses tree := rfl
  have hfn : (analyzeFile path lines (.ok tree)).functions =
      extractFunctions tree := rfl
  have h' : (extractClasses tree).length + (extractFunctions tree).length ≠ 0 := by
    rw [hcl, hfn] at h
    omega
  have hpct : (analyzeFile path lines (.ok tree)).ui_percentage =
      ((((extractClasses tree).filter (fun c => c.is_ui_class)).length +
        ((extractFunctions tree).filter
          (fun f => f.ui_usage.length > 0)).length : Nat) : ℚ) /
        (((extractClasses tree).length + (extractFunctions tree).length :
          Nat) : ℚ) * 100 :=
    classifyFile_pct (detectImports tree) (extractClasses tree)
      (extractFunctions tree) h'
  have hfilter : (extractFunctions tree).filter (fun f => f.ui_usage ≠ []) =
      (extractFunctions tree).filter (fun f => f.ui_usage.length > 0) := by
    apply List.filter_congr
    intro f _
    simp [List.length_pos]
  have hflagu : (analyzeFile path lines (.ok tree)).is_ui_file =
      (classifyFile (detectImports tree) (extractClasses tree)
        (extractFunctions tree)).1 := rfl
  have hflagl : (analyzeFile path lines (.ok tree)).is_logic_file =
      (classifyFile (detectImports tree) (extractClasses tree)
        (extractFunctions tree)).2.1 := rfl
  have hflagm : (analyzeFile path lines (.ok tree)).is_mixed_file =
      (classifyFile (detectImports tree) (extractClasses tree)
        (extractFunctions tree)).2.2.1 := rfl
  refine ⟨?_, ?_, ?_, ?_⟩
  · rw [hpct, hcl, hfn, hfilter]
    push_cast
    ring
  · intro hp
    rw [hpct] at hp
    rw [hflagu]
    unfold classifyFile
    dsimp only
    rw [if_neg h', if_pos (by rw [hp])]
  · intro hp hpure
    rw [hpct] at hp
    rw [hfn] at hpure
    rw [hflagl]
    unfold classifyFile
    dsimp only
    rw [if_neg h', if_neg (by rw [hp]; norm_num),
      if_pos ⟨by rw [hp], by omega⟩]
  · intro hp hpure
    rw [hpct] at hp
    rw [hfn] at hpure
    rw [hflagm]
    unfold classifyFile
    dsimp only
    rw [if_neg h', if_neg (by rw [hp]; norm_num),
      if_neg (by rw [hpure]; simp)]

/-- Witness for C1 at the exact 80% boundary: the 4-of-5-UI-classes demo
file is classified as a UI file. -/
theorem c1_threshold_boundaries_witness :
    (analyzeFile "ui.py" ["x"] (.ok demoUi80Tree)).is_ui_file = true :=
  (c1_threshold_boundaries "ui.py" ["x"] demoUi80Tree (by decide)).2.1
    (by
      have h1 : (analyzeFile "ui.py" ["x"] (.ok demoUi80Tree)).ui_percentage =
          (classifyFile (detectImports demoUi80Tree)
            (extractClasses demoUi80Tree)
            (extractFunctions demoUi80Tree)).2.2.2 := rfl
      have h2 : ((extractClasses demoUi80Tree).filter
          (fun c => c.is_ui_class)).length = 4 := by decide
      have h3 : ((extractFunctions demoUi80Tree).filter
          (fun f => f.ui_usage.length > 0)).length = 0 := by decide
      have h4 : (extractClasses demoUi80Tree).length = 5 := by decide
      have h5 : (extractFunctions demoUi80Tree).length = 0 := by decide
      rw [h1, classifyFile_pct _ _ _ (by decide), h2, h3, h4, h5]
      norm_num)

/-- Claim C7: the record of a `from`-import with a non-empty module name is
flagged UI exactly under the claim's three-way condition: module equals a
framework; or module is a dotted descendant of a framework with wildcard or
allow-listed submodule suffix; or an imported name is a known UI base
class. -/
theorem c7_from_import_ui_iff (ln : Nat) (module : String)
    (names : List String) (rec : ImportRec)
    (h : rec ∈ processImportFrom ln (some module) names) :
    (rec.is_ui = true ↔ claimUiImportFrom module names) := by
  simp only [processImportFrom, List.mem_singleton] at h
  subst h
  show isUiImportFrom module names = true ↔ claimUiImportFrom module names
  have key : ∀ fs ∈ UI_FRAMEWORKS,
      ((strStartsWith module (fs.1 ++ ".") &&
        (fs.2.contains "*" ||
          fs.2.contains (if containsDot module then afterFirstDot module
            else ""))) = true) ↔
      ((∃ r, module.data = (fs.1 ++ ".").data ++ r) ∧
        ("*" ∈ fs.2 ∨ suffixAfterFramework fs.1 module ∈ fs.2)) := by
    intro fs hmem
    rw [Bool.and_eq_true, strStartsWith_iff]
    apply and_congr_right
    intro hpre
    obtain ⟨r, hr⟩ := hpre
    have hdata : module.data = fs.1.data ++ '.' :: r := by
      rw [hr]
      simp [String.data_append]
    have hdot : containsDot module = true := by
      simp [containsDot, hdata, List.contains, List.elem_iff]
    have hsuffix : (if containsDot module then afterFirstDot module
        else "") = suffixAfterFramework fs.1 module := by
      rw [hdot]
      show afterFirstDot module = suffixAfterFramework fs.1 module
      unfold afterFirstDot suffixAfterFramework
      rw [hdata, afterFirstDotAux_append fs.1.data
        (frameworks_dot_free fs hmem) r, List.drop_append]
      rfl
    rw [hsuffix]
    simp [List.contains, List.elem_iff]
  unfold isUiImportFrom claimUiImportFrom
  simp only [Bool.or_eq_true, List.any_eq_true, beq_iff_eq]
  rw [or_assoc]
  apply or_congr
  · exact exists_congr (fun fs => and_congr_right (fun _ => eq_comm))
  apply or_congr
  · exact exists_congr (fun fs =>
      and_congr_right (fun hmem => key fs hmem))
  · constructor
    · rintro ⟨n, hn, hin⟩
      exact ⟨n, hn, by simpa [List.contains, List.elem_iff] using hin⟩
    · rintro ⟨n, hn, hin⟩
      exact ⟨n, hn, by simpa [List.contains, List.elem_iff] using hin⟩

/-- Witness for C7: the concrete import
`from PyQt5.QtWidgets import QWidget` is flagged UI and satisfies the
claim's condition. -/
theorem c7_from_import_ui_iff_witness :
    ({ module := "PyQt5.QtWidgets", names := ["QWidget"]
       is_ui := isUiImportFrom "PyQt5.QtWidgets" ["QWidget"]
       line_number := 3 } : ImportRec).is_ui = true ↔
      claimUiImportFrom "PyQt5.QtWidgets" ["QWidget"] :=
  c7_from_import_ui_iff 3 "PyQt5.QtWidgets" ["QWidget"]
    { module := "PyQt5.QtWidgets", names := ["QWidget"]
      is_ui := isUiImportFrom "PyQt5.QtWidgets" ["QWidget"]
      line_number := 3 }
    (by simp [processImportFrom])

/-- Claim C8: a file that fails to parse yields a `FileAnalysis` with empty
imports/classes/functions, all three flags false, `ui_percentage` zero, and
`loc` equal to the raw line count of the text. -/
theorem c8_syntax_error_analysis (path : String) (lines : List String) :
    analyzeFile path lines .error =
      { path := path, imports := [], classes := [], functions := []
        loc := lines.length
        is_ui_file := false, is_logic_file := false, is_mixed_file := false
        ui_percentage := 0 } := rfl

/-- Claim C9: a root path that is a single file is always kept, whatever
its name and whatever segments its path contains — the dot-file and
`__pycache__` filters act only on recursive directory discovery (second
conjunct: both filters dropping files found under a directory root). -/
theorem c9_single_file_discovery :
    (∀ (rootPre : List String) (n : String),
      pythonFiles rootPre (.file n) = [rootPre ++ [n]]) ∧
    pythonFiles [] (.dir "proj"
      [.file ".hidden.py", .dir "__pycache__" [.file "c.py"], .file "a.py"]) =
      [["proj", "a.py"]] :=
  ⟨fun _ _ => rfl, by decide⟩

/-- Counterexample to Claim C4: an empty file parses, is classified as a
Logic file (zero elements, no UI imports) and has no UI imports, yet the
project consisting of it alone reports a web-ready percentage of 0, not
100 — the all-Logic clause of the claim fails when the total LOC is 0. -/
theorem c4_counterexample_zero_loc :
    (analyzeFile "empty.py" ([] : List String) (.ok [])).is_logic_file =
      true ∧
    (analyzeFile "empty.py" ([] : List String) (.ok [])).imports = [] ∧
    (analyzeProject [demoEmptySource]).web_ready_percentage = 0 ∧
    (analyzeProject [demoEmptySource]).web_ready_percentage ≠ 100 := by
  refine ⟨by decide, by decide, ?_, ?_⟩
  · show webReadyPercentage (analyzeAll [demoEmptySource]) = 0
    rfl
  · show webReadyPercentage (analyzeAll [demoEmptySource]) ≠ 100
    have h0 : webReadyPercentage (analyzeAll [demoEmptySource]) = 0 := rfl
    rw [h0]
    norm_num

/-- Claim C4 as amended: for well-formed inputs the web-ready percentage
always lies in `[0, 100]`, and it equals exactly 100 when every analyzed
file is a Logic file with no UI imports *and the total LOC is positive*
(for a total LOC of 0 the source returns 0 instead). -/
theorem c4_amended_web_ready (inputs : List SourceFile)
    (hwf : ∀ s ∈ inputs, WellFormedSource s) :
    (0 ≤ (analyzeProject inputs).web_ready_percentage ∧
      (analyzeProject inputs).web_ready_percentage ≤ 100) ∧
    ((∀ f ∈ analyzeAll inputs, f.is_logic_file = true ∧
        f.imports.all (fun i => !i.is_ui) = true) →
      0 < (analyzeProject inputs).total_loc →
      (analyzeProject inputs).web_ready_percentage = 100) := by
  have hproj : (analyzeProject inputs).web_ready_percentage =
      webReadyPercentage (analyzeAll inputs) := rfl
  have hexcl : ∀ f ∈ analyzeAll inputs,
      ¬(f.is_logic_file = true ∧ f.is_mixed_file = true) := by
    intro f hf
    obtain ⟨s, hs, rfl⟩ := List.mem_map.mp hf
    exact analyzeFile_not_logic_and_mixed s.path s.lines s.parse
  have hpure : ∀ f ∈ analyzeAll inputs,
      ((f.functions.filter (fun fn => fn.is_pure)).map
        (fun fn => fn.loc)).sum ≤ f.loc := by
    intro f hf
    obtain ⟨s, hs, rfl⟩ := List.mem_map.mp hf
    exact analyzeFile_pure_le_loc s (hwf s hs)
  have hweb := webLoc_le_total (analyzeAll inputs) hexcl hpure
  constructor
  · rw [hproj]
    unfold webReadyPercentage
    dsimp only
    split
    · norm_num
    · split
      · norm_num
      · rename_i hne hT
        apply round2_bounds
        · positivity
        · set W : ℕ := (((analyzeAll inputs).filter
              (fun f => f.is_logic_file)).map (fun f => f.loc)).sum +
            (((analyzeAll inputs).filter (fun f => f.is_mixed_file)).map
              (fun f => ((f.functions.filter (fun fn => fn.is_pure)).map
                (fun fn => fn.loc)).sum)).sum with hW
          set T : ℕ := ((analyzeAll inputs).map (fun f => f.loc)).sum
            with hTdef
          have h2 : (0 : ℚ) < (T : ℚ) := by
            exact_mod_cast Nat.pos_of_ne_zero hT
          have h3 : (W : ℚ) / (T : ℚ) ≤ 1 := by
            rw [div_le_one h2]
            exact_mod_cast hweb
          nlinarith [h3]
  · intro hall hT
    rw [hproj]
    have hT' : ((analyzeAll inputs).map (fun f => f.loc)).sum ≠ 0 := by
      have h4 : (analyzeProject inputs).total_loc =
          ((analyzeAll inputs).map (fun f => f.loc)).sum := rfl
      rw [h4] at hT
      omega
    have hne : analyzeAll inputs ≠ [] := by
      intro h
      rw [h] at hT'
      simp at hT'
    unfold webReadyPercentage
    dsimp only
    rw [if_neg hne, if_neg hT']
    have hfl : (analyzeAll inputs).filter (fun f => f.is_logic_file) =
        analyzeAll inputs :=
      List.filter_eq_self.mpr (fun f hf => (hall f hf).1)
    have hfm : (analyzeAll inputs).filter (fun f => f.is_mixed_file) =
        [] := by
      rw [List.filter_eq_nil_iff]
      intro f hf
      cases hmf : f.is_mixed_file
      · simp
      · exact absurd ⟨(hall f hf).1, hmf⟩ (hexcl f hf)
    rw [hfl, hfm]
    simp only [List.map_nil, List.sum_nil, Nat.add_zero]
    have h5 : ((((analyzeAll inputs).map (fun f => f.loc)).sum : Nat) : ℚ) /
        ((((analyzeAll inputs).map (fun f => f.loc)).sum : Nat) : ℚ) = 1 :=
      div_self (by exact_mod_cast hT')
    rw [h5, one_mul]
    exact round2_hundred

/-- Witness for the amended C4 on a concrete one-file all-Logic project
with 3 lines of code: the web-ready percentage is exactly 100. -/
theorem c4_amended_web_ready_witness :
    (analyzeProject [demoLogicSource]).web_ready_percentage = 100 :=
  (c4_amended_web_ready [demoLogicSource]
    (by
      intro s hs
      simp only [List.mem_singleton] at hs
      subst hs
      show SpansOK (fnSpans [.functionDef false "f" 1 2
        [.exprStmt (.name "y")], .exprStmt (.call (.name "f") [])]) 1 3
      exact ⟨by norm_num, by norm_num [endLineOr],
        by norm_num [endLineOr], trivial⟩)).2
    (by
      intro f hf
      simp only [analyzeAll, demoLogicSource, List.map_cons, List.map_nil,
        List.mem_singleton] at hf
      subst hf
      refine ⟨?_, by decide⟩
      show (classifyFile
        (detectImports [.functionDef false "f" 1 2 [.exprStmt (.name "y")],
          .exprStmt (.call (.name "f") [])])
        (extractClasses [.functionDef false "f" 1 2 [.exprStmt (.name "y")],
          .exprStmt (.call (.name "f") [])])
        (extractFunctions [.functionDef false "f" 1 2
          [.exprStmt (.name "y")],
          .exprStmt (.call (.name "f") [])])).2.1 = true
      have h6 : 0 < ((extractFunctions [.functionDef false "f" 1 2
          [.exprStmt (.name "y")],
          .exprStmt (.call (.name "f") [])]).filter
          (fun f => f.is_pure)).length := by decide
      have h2 : ((extractClasses [.functionDef false "f" 1 2
          [.exprStmt (.name "y")],
          .exprStmt (.call (.name "f") [])]).filter
          (fun c => c.is_ui_class)).length = 0 := by decide
      have h3 : ((extractFunctions [.functionDef false "f" 1 2
          [.exprStmt (.name "y")],
          .exprStmt (.call (.name "f") [])]).filter
          (fun f => f.ui_usage.length > 0)).length = 0 := by decide
      have h4 : (extractClasses [.functionDef false "f" 1 2
          [.exprStmt (.name "y")],
          .exprStmt (.call (.name "f") [])]).length = 0 := by decide
      have h5 : (extractFunctions [.functionDef false "f" 1 2
          [.exprStmt (.name "y")],
          .exprStmt (.call (.name "f") [])]).length = 1 := by decide
      unfold classifyFile
      dsimp only
      rw [h2, h3, h4, h5]
      rw [if_neg (by omega), if_neg (by norm_num),
        if_pos ⟨by norm_num, h6⟩])
    (by decide)

/-- Counterexample to Claim C5: in a two-file project whose first file
imports `tkinter` and whose second imports only `os`, the project-level
`ui_frameworks` entry is empty, while the union over all analyzed files
contains `"tkinter"` — the state is last-file-wins, not a union. -/
theorem c5_counterexample_not_union :
    (analyzeProject [demoTkSource, demoOsSource]).ui_frameworks = [] ∧
    unionUiFrameworks [demoTkSource, demoOsSource] = ["tkinter"] ∧
    (analyzeProject [demoTkSource, demoOsSource]).ui_frameworks ≠
      unionUiFrameworks [demoTkSource, demoOsSource] := by
  decide

/-- Claim C5 as amended: the `ui_frameworks` entry equals the framework set
observed in the most recently successfully parsed file of the run (empty
when no file parses), not the union across files. -/
theorem c5_amended_last_parse_wins (inputs : List SourceFile) :
    (analyzeProject inputs).ui_frameworks =
      (lastParsedTree inputs).elim []
        (fun tree => uiFrameworksUsed (detectImports tree)) := by
  show runUiFrameworks [] inputs = _
  simpa using runUiFrameworks_lastParsedFrom inputs none

/-- Counterexample to Claim C6: a single UI-classified file holding 17 UI
classes and 4 plain classes.  The project's total number of UI classes is
17, for which the claim's formula says "medium", but the code tallies the
whole class list of every UI file (21 classes) and reports "high". -/
theorem c6_counterexample_counts_all_classes :
    (analyzeProject [demoUiHeavySource]).estimated_complexity = "high" ∧
    numUiClasses (analyzeAll [demoUiHeavySource]) = 17 ∧
    claimComplexity (numUiClasses (analyzeAll [demoUiHeavySource])) =
      "medium" ∧
    (analyzeProject [demoUiHeavySource]).estimated_complexity ≠
      claimComplexity (numUiClasses (analyzeAll [demoUiHeavySource])) := by
  have hui : (analyzeFile "big.py" ["x"] (.ok demoUiHeavyTree)).is_ui_file =
      true := by
    have h1 : (analyzeFile "big.py" ["x"] (.ok demoUiHeavyTree)).is_ui_file =
        (classifyFile (detectImports demoUiHeavyTree)
          (extractClasses demoUiHeavyTree)
          (extractFunctions demoUiHeavyTree)).1 := rfl
    have h2 : ((extractClasses demoUiHeavyTree).filter
        (fun c => c.is_ui_class)).length = 17 := by decide
    have h3 : ((extractFunctions demoUiHeavyTree).filter
        (fun f => f.ui_usage.length > 0)).length = 0 := by decide
    have h4 : (extractClasses demoUiHeavyTree).length = 21 := by decide
    have h5 : (extractFunctions demoUiHeavyTree).length = 0 := by decide
    rw [h1]
    unfold classifyFile
    dsimp only
    rw [h2, h3, h4, h5]
    rw [if_neg (by omega), if_pos (by norm_num)]
  have hfilter : (analyzeAll [demoUiHeavySource]).filter
      (fun f => f.is_ui_file) =
      [analyzeFile "big.py" ["x"] (.ok demoUiHeavyTree)] := by
    simp [analyzeAll, demoUiHeavySource, List.filter, hui]
  have hcplx : (analyzeProject [demoUiHeavySource]).estimated_complexity =
      estimatedComplexity ((analyzeAll [demoUiHeavySource]).filter
        (fun f => f.is_ui_file)) := rfl
  have hhigh : estimatedComplexity
      [analyzeFile "big.py" ["x"] (.ok demoUiHeavyTree)] = "high" := by
    have h4 : ([analyzeFile "big.py" ["x"] (.ok demoUiHeavyTree)].map
        (fun f => f.classes.length)).sum = 21 := by decide
    unfold estimatedComplexity
    rw [h4]
    rfl
  refine ⟨by rw [hcplx, hfilter, hhigh], by decide, by decide, ?_⟩
  rw [hcplx, hfilter, hhigh]
  have : claimComplexity (numUiClasses (analyzeAll [demoUiHeavySource])) =
      "medium" := by decide
  rw [this]
  decide

/-- Claim C6 as amended: the guide's estimated complexity applies the
20/10 thresholds to the total number of classes — UI or not — contained in
the files classified as UI (classes of Logic and Mixed files are never
counted). -/
theorem c6_amended_complexity (inputs : List SourceFile) :
    (analyzeProject inputs).estimated_complexity =
      claimComplexity ((((analyzeAll inputs).filter
        (fun f => f.is_ui_file)).map (fun f => f.classes.length)).sum) := rfl

/-- Claim C10: in a Mixed file, a top-level function that is impure solely
because of global/nonlocal access (empty UI-usage list) and spans at least 5
lines receives a "medium"-effort extraction suggestion whose reason names no
UI usages. -/
theorem c10_global_only_medium_suggestion (files : List FileAnalysis)
    (file : FileAnalysis) (hf : file ∈ files)
    (hm : file.is_mixed_file = true) (func : FunctionInfo)
    (hfn : func ∈ file.functions) (hp : func.is_pure = false)
    (hu : func.ui_usage = []) (_hg : func.has_global_access = true)
    (hl : 5 ≤ func.loc) :
    ∃ s ∈ genExtractionSuggestions files,
      s.file = file.path ∧ s.function = func.name ∧
      s.estimated_effort = "medium" ∧ s.reason = "Minimal UI usage: " := by
  refine ⟨{ file := file.path, function := func.name
            start_line := func.start_line, end_line := func.end_line
            reason := "Minimal UI usage: " ++
              String.intercalate ", " func.ui_usage
            web_ready := false, estimated_effort := "medium"
            dependencies := func.dependencies }, ?_, rfl, rfl, rfl, ?_⟩
  · simp only [genExtractionSuggestions, List.mem_flatMap]
    refine ⟨file, hf, ?_⟩
    rw [hm]
    simp only [if_true, List.mem_append]
    refine Or.inr (List.mem_filterMap.mpr ⟨func, hfn, ?_⟩)
    simp [hp, hu, hl]
  · rw [hu]
    show "Minimal UI usage: " ++ String.intercalate ", " [] = "Minimal UI usage: "
    decide

/-- Witness for C10 on the concrete mixed demo file. -/
theorem c10_global_only_medium_suggestion_witness :
    ∃ s ∈ genExtractionSuggestions [demoMixedFile],
      s.file = demoMixedFile.path ∧
      s.function = (analyzeFunction "g" 1 6
        [.globalDecl ["state"], .exprStmt (.name "state")] false).name ∧
      s.estimated_effort = "medium" ∧ s.reason = "Minimal UI usage: " :=
  c10_global_only_medium_suggestion [demoMixedFile] demoMixedFile
    (by simp)
    (by simp [demoMixedFile, analyzeFile, classifyFile, demoMixedTree,
          extractFunctions, extractClasses, stmtsClasses, stmtClasses,
          analyzeFunction, detectUiUsage, stmtsUi, stmtUi, exprUi,
          stmtsGlobal, stmtGlobal]; norm_num)
    (analyzeFunction "g" 1 6
      [.globalDecl ["state"], .exprStmt (.name "state")] false)
    (by decide) (by decide) (by decide) (by decide) (by decide)

end AnalysisWeb
